import Mathlib

/-!
Verification of the content-ingestion and digest-assembly core of the
personal_assistant repository, via a shallow embedding of the relevant
Python modules into Lean.

Conventions of the embedding:
* Naive UTC timestamps are modelled as `Int` minutes since an arbitrary
  epoch (only ordering and differences matter); 24 hours = 1440 minutes.
* Calendar datetimes (needed by `compute_next_run_utc`, which manipulates
  datetime fields directly) are modelled by the structure `PyDateTime`
  with Python datetime field-lexicographic comparison.
* Database effects are modelled by explicit state passing; a SQL
  transaction that either commits or rolls back atomically becomes a
  function returning either the updated state or the unchanged state.
* Python exceptions become `Except`/`Option` results or explicit outcome
  parameters where the exception originates outside the embedded code
  (network, LLM backend).
-/

/-! ## Calendar datetimes (src/workers/daily_digest_worker.py) -/

/-- A Python naive `datetime`, as used by `compute_next_run_utc`. -/
structure PyDateTime where
  year : Nat
  month : Nat
  day : Nat
  hour : Nat
  minute : Nat
  second : Nat
  microsecond : Nat
deriving DecidableEq

/-- Python `datetime` comparison: lexicographic on the fields. -/
def PyDateTime.ltb (a b : PyDateTime) : Bool :=
  if a.year ≠ b.year then a.year < b.year
  else if a.month ≠ b.month then a.month < b.month
  else if a.day ≠ b.day then a.day < b.day
  else if a.hour ≠ b.hour then a.hour < b.hour
  else if a.minute ≠ b.minute then a.minute < b.minute
  else if a.second ≠ b.second then a.second < b.second
  else a.microsecond < b.microsecond

/-- Gregorian leap-year rule (Python `calendar.isleap`, used implicitly by
`datetime + timedelta(days=1)`). -/
def isLeapYear (y : Nat) : Bool :=
  (y % 4 = 0 && y % 100 ≠ 0) || y % 400 = 0

/-- Days in a Gregorian month. -/
def daysInMonth (y m : Nat) : Nat :=
  if m = 2 then (if isLeapYear y then 29 else 28)
  else if m = 4 || m = 6 || m = 9 || m = 11 then 30
  else 31

/-- The `dt + timedelta(days=1)` for a naive datetime: the next calendar day at
the same time of day. -/
def addOneDay (dt : PyDateTime) : PyDateTime :=
  if dt.day < daysInMonth dt.year dt.month then { dt with day := dt.day + 1 }
  else if dt.month < 12 then { dt with month := dt.month + 1, day := 1 }
  else { dt with year := dt.year + 1, month := 1, day := 1 }

/-- The `now_utc.replace(hour=hour, minute=minute, second=0, microsecond=0)`. -/
def replaceTime (dt : PyDateTime) (h m : Nat) : PyDateTime :=
  { dt with hour := h, minute := m, second := 0, microsecond := 0 }

/-- Lowercase a character list: Python `str.lower` over the characters. -/
def lowerChars (l : List Char) : List Char := l.map Char.toLower

/-- Python `int` on a decimal numeral: all digits, most significant
first; empty or non-digit input raises (modelled as `none`). -/
def parseDigits (l : List Char) : Option Nat :=
  if l.isEmpty then none
  else if l.all Char.isDigit then
    some (l.foldl (fun acc c => acc * 10 + (c.toNat - '0'.toNat)) 0)
  else none

/-- Python `str.split(sep)` for a one-character separator. -/
def splitOnChar (sep : Char) : List Char → List (List Char)
  | [] => [[]]
  | c :: rest =>
    let r := splitOnChar sep rest
    if c = sep then [] :: r
    else
      match r with
      | [] => [[c]]
      | h :: t => (c :: h) :: t

/-- Python `str.strip()`: drop whitespace from both ends. -/
def stripChars (l : List Char) : List Char :=
  ((l.dropWhile Char.isWhitespace).reverse.dropWhile Char.isWhitespace).reverse

/-- Python `str.strip()` on a string. -/
def pyStrip (s : String) : String := String.mk (stripChars s.toList)

/-- The `hour, minute = map(int, digest_time_str.split(":"))`: exactly two
colon-separated fields, each a decimal numeral; anything else raises
(modelled as `none`). -/
def parseTimeParts (s : String) : Option (Nat × Nat) :=
  match splitOnChar ':' s.toList with
  | [hs, ms] =>
    match parseDigits hs, parseDigits ms with
    | some h, some m => some (h, m)
    | _, _ => none
  | _ => none

/-- The `compute_next_run_utc` from src/workers/daily_digest_worker.py lines
35-54: target is today at HH:MM; return target if now is strictly before
it, else target plus one day. -/
def compute_next_run_utc (now_utc : PyDateTime) (digest_time_str : String) :
    Option PyDateTime :=
  match parseTimeParts digest_time_str with
  | none => none
  | some (h, m) =>
    let target_today := replaceTime now_utc h m
    some (if PyDateTime.ltb now_utc target_today then target_today
          else addOneDay target_today)

/-! ## Sources, categories and extracted articles
(src/core/models/security_digest.py, src/core/primitives/fetchers/base.py) -/

/-- The fields of `Category` used by the fetch manager. -/
structure Category where
  keywords : List String
  digest_section : Option String
deriving DecidableEq

/-- The fields of `Source` used by the fetch manager. `last_fetched_at` is
in minutes since the epoch; `fetch_interval_minutes` is a duration in
minutes. -/
structure Source where
  id : Nat
  enabled : Bool
  last_fetched_at : Option Int
  fetch_interval_minutes : Int
  keywords : List String
  category : Option Category
deriving DecidableEq

/-- The `ExtractedArticle` from src/core/primitives/fetchers/base.py as consumed
by `_save_articles`. -/
structure ExtractedArticle where
  url : String
  title : String
  content : String
  published_at : Option Int
deriving DecidableEq

/-! ## Claiming a due source (FetcherManager.fetch_due_sources, lines 93-127) -/

/-- The SQL due condition of src/core/primitives/fetchers/manager.py lines
96-99: `last_fetched_at IS NULL OR last_fetched_at <= now_utc -
fetch_interval_minutes * interval 1 minute`. -/
def dueWhen (s : Source) (now_utc : Int) : Bool :=
  match s.last_fetched_at with
  | none => true
  | some t => t ≤ now_utc - s.fetch_interval_minutes

/-- A row satisfies the claim query's WHERE clause and is visible to
`SELECT ... FOR UPDATE SKIP LOCKED`: enabled, due, not already attempted in
this cycle, and not locked by another transaction. -/
def claimEligible (s : Source) (now_utc : Int)
    (attempted locked : List Nat) : Bool :=
  s.enabled && dueWhen s now_utc &&
    !(attempted.contains s.id) && !(locked.contains s.id)

/-- The `ORDER BY last_fetched_at ASC NULLS FIRST`: `a` sorts no later than `b`.
NULL sorts before every non-NULL value. -/
def olderOrSame : Option Int → Option Int → Bool
  | none, _ => true
  | some _, none => false
  | some a, some b => a ≤ b

/-- Select the first row of the claim query's ordering: a minimal element
under `olderOrSame`, earliest-listed winning ties. -/
def pickOldest : List Source → Option Source
  | [] => none
  | s :: rest =>
    match pickOldest rest with
    | none => some s
    | some b =>
      if olderOrSame s.last_fetched_at b.last_fetched_at then some s else some b

/-- One claim step of `fetch_due_sources` (manager.py lines 109-123): the
`SELECT ... WHERE enabled AND due AND id NOT IN attempted ORDER BY
last_fetched_at ASC NULLS FIRST ... FOR UPDATE SKIP LOCKED LIMIT 1`
query, over the current `sources` table. -/
def claimNextDueSource (sources : List Source) (now_utc : Int)
    (attempted locked : List Nat) : Option Source :=
  pickOldest (sources.filter (fun s => claimEligible s now_utc attempted locked))

/-! ## The three filter gates (FetcherManager._save_articles, lines 258-321) -/

/-- The `_get_date_cutoff` (manager.py lines 323-338): the source's
`last_fetched_at` when set, otherwise now minus 24 hours. -/
def _get_date_cutoff (source : Source) (now_utc : Int) : Int :=
  match source.last_fetched_at with
  | some t => t
  | none => now_utc - 1440

/-- The `_is_recent_enough` (manager.py lines 340-359): articles with no
published date are included; otherwise include iff
`published_at >= cutoff_date`. -/
def _is_recent_enough (article : ExtractedArticle) (cutoff_date : Int) : Bool :=
  match article.published_at with
  | none => true
  | some p => cutoff_date ≤ p

/-- Contiguous-sublist test on character lists: Python `pat in s` on
strings. The empty pattern is contained in everything. -/
def containsChars (pat : List Char) : List Char → Bool
  | [] => pat.isEmpty
  | c :: rest => List.isPrefixOf pat (c :: rest) || containsChars pat rest

/-- Case-insensitive substring containment, Python `needle in haystack`
after `.lower()` on the haystack and the needle. -/
def containsLowered (needle haystack : String) : Bool :=
  containsChars (lowerChars needle.toList) (lowerChars haystack.toList)

/-- The `_matches_keywords` (manager.py lines 361-389): union of source and
category keywords; empty set admits everything; otherwise some lowercased
keyword must occur in the lowercased `title ++ " " ++ content`. -/
def _matches_keywords (article : ExtractedArticle) (source : Source) : Bool :=
  let categoryKeywords := match source.category with
    | some c => c.keywords
    | none => []
  let keywords := source.keywords ++ categoryKeywords
  if keywords.isEmpty then true
  else keywords.any (fun kw =>
    containsLowered kw (article.title ++ " " ++ article.content))

/-- The per-source counters returned by `_save_articles`. -/
structure SaveStats where
  saved : Nat
  filtered : Nat
  old : Nat
  duplicate : Nat
deriving DecidableEq

/-- Loop state of `_save_articles`: the set of article URLs visible to the
de-duplication SELECT (initial table contents plus rows added so far in
this session, which autoflush makes visible), the articles inserted so
far, and the counters. -/
structure SaveState where
  existing : List String
  inserted : List ExtractedArticle
  stats : SaveStats
deriving DecidableEq

/-- One iteration of the `for article in articles` loop of `_save_articles`
(manager.py lines 285-318): de-duplication check, then date filter, then
keyword filter, then insert. -/
def saveStep (source : Source) (cutoff_date : Int)
    (st : SaveState) (article : ExtractedArticle) : SaveState :=
  if st.existing.contains article.url then
    { st with stats := { st.stats with duplicate := st.stats.duplicate + 1 } }
  else if !(_is_recent_enough article cutoff_date) then
    { st with stats := { st.stats with old := st.stats.old + 1 } }
  else if !(_matches_keywords article source) then
    { st with stats := { st.stats with filtered := st.stats.filtered + 1 } }
  else
    { existing := st.existing ++ [article.url],
      inserted := st.inserted ++ [article],
      stats := { st.stats with saved := st.stats.saved + 1 } }

/-- The `_save_articles` (manager.py lines 258-321): fold the per-article gates
over the candidate list, with the cutoff computed once up front. -/
def _save_articles (source : Source) (now_utc : Int)
    (existingUrls : List String) (articles : List ExtractedArticle) : SaveState :=
  articles.foldl (saveStep source (_get_date_cutoff source now_utc))
    { existing := existingUrls, inserted := [], stats := ⟨0, 0, 0, 0⟩ }

/-! ## Article link extraction
(WebsiteFetcher._extract_article_links, src/core/primitives/fetchers/website.py
lines 105-218). The embedding starts at the point where an anchor href has
been resolved to an absolute URL and parsed by `urlparse`; the DOM pruning
of lines 119-147 and the pre-parse href checks of line 155 happen before a
`ParsedUrl` exists and are outside the claims. -/

/-- Result of Python `urlparse` on an absolute URL, restricted to the
components the filter reads. -/
structure ParsedUrl where
  scheme : String
  netloc : String
  path : String
  query : String
deriving DecidableEq

/-- Python `s.strip("/")`: remove leading and trailing slash characters. -/
def stripSlashes (l : List Char) : List Char :=
  ((l.dropWhile (fun c => c = '/')).reverse.dropWhile (fun c => c = '/')).reverse

/-- The normalization of website.py lines 169-171: scheme, netloc and path,
with the query kept and the fragment dropped. -/
def normalizeUrl (u : ParsedUrl) : String :=
  u.scheme ++ "://" ++ u.netloc ++ u.path ++
    (if u.query ≠ "" then "?" ++ u.query else "")

/-- The `skip_patterns` of website.py lines 180-202, verbatim. -/
def skipPatternList : List String :=
  ["/tag/", "/tags/", "/category/", "/categories/", "/author/", "/page/",
   "/search", "/login", "/register", "/signup", "/about", "/contact",
   "/privacy", "/terms", "/feed", "/rss", ".xml", ".pdf", ".jpg", ".png",
   ".gif"]

/-- The `_looks_like_article_url` (website.py lines 220-242). -/
def _looks_like_article_url (u : ParsedUrl) : Bool :=
  ["/article/", "/post/", "/blog/", "/news/", "/story/", "/20"].any
    (fun pat => containsChars pat.toList (lowerChars u.path.toList))

/-- The accept/reject decision of `_extract_article_links` for one parsed
candidate URL (website.py lines 162-216): scheme check, seen-set
de-duplication, skip-pattern filter on the lowercased path, minimum path
length after stripping slashes, then internal links accepted and external
links accepted only when they look like articles. -/
def acceptLink (u : ParsedUrl) (base_domain : String) (seen : List String) : Bool :=
  if !(u.scheme = "http" || u.scheme = "https") then false
  else if seen.contains (normalizeUrl u) then false
  else if skipPatternList.any
      (fun pat => containsChars pat.toList (lowerChars u.path.toList)) then false
  else if (stripSlashes u.path.toList).length < 3 then false
  else if u.netloc = base_domain || u.netloc = "" then true
  else _looks_like_article_url u

/-- The rejection rule exactly as the claim states it: non-http(s), or one
of the listing categories the claim enumerates, or a path ending in one of
the five extensions, or a normalized path shorter than 3 characters. Stated
from the claim's words for comparison with `acceptLink`. -/
def claimRejects (u : ParsedUrl) : Bool :=
  !(u.scheme = "http" || u.scheme = "https")
  || ["/tag/", "/tags/", "/category/", "/categories/", "/author/", "/page/",
      "/search", "/login", "/about", "/contact", "/privacy", "/terms",
      "/feed", "/rss"].any
      (fun pat => containsChars pat.toList (lowerChars u.path.toList))
  || [".xml", ".pdf", ".jpg", ".png", ".gif"].any
      (fun ext => List.isSuffixOf ext.toList (lowerChars u.path.toList))
  || decide (u.path.length < 3)

/-- The rejection rule as amended to match the code: non-http(s), or
already-seen normalized URL, or any skip pattern (including register and
signup, and the five extensions matched anywhere in the path) occurring in
the lowercased path, or a path shorter than 3 characters after stripping
leading and trailing slashes. -/
def amendedRejects (u : ParsedUrl) (seen : List String) : Bool :=
  !(u.scheme = "http" || u.scheme = "https")
  || seen.contains (normalizeUrl u)
  || skipPatternList.any
      (fun pat => containsChars pat.toList (lowerChars u.path.toList))
  || decide ((stripSlashes u.path.toList).length < 3)

/-! ## Summarizer (SummarizerService.summarize,
src/core/services/summarizer.py lines 80-125) -/

/-- The JSON value found under the response's summary field. -/
inductive JsonField
  | jstr (s : String)
  | jother
deriving DecidableEq

/-- Outcome of everything inside the try block that is external to the
embedded code: settings reads, LLM construction and the
`complete_json` call. `failure` is any raised exception; `success f` is a
returned dict whose summary field is `f` (absent when `none`). -/
inductive LLMOutcome
  | failure
  | success (summaryField : Option JsonField)
deriving DecidableEq

/-- The `SummaryResult` dataclass of summarizer.py. -/
structure SummaryResult where
  summary : String
  url : String
  title : String
deriving DecidableEq

/-- The `summarize` (summarizer.py lines 80-125): on exception return the
title; on success take `result.get("summary", "")`, and if it is not a
string or strips to empty, return the title, else the stripped summary. -/
def summarize (title content url : String) (outcome : LLMOutcome) : SummaryResult :=
  match outcome with
  | .failure => { summary := title, url := url, title := title }
  | .success f =>
    match f with
    | some (.jstr s) =>
      if pyStrip s = "" then { summary := title, url := url, title := title }
      else { summary := pyStrip s, url := url, title := title }
    | some .jother => { summary := title, url := url, title := title }
    | none => { summary := title, url := url, title := title }

/-! ## Settings store (SettingsService, src/core/services/settings.py) -/

/-- A typed setting value as held in the `{"value": ...}` JSONB envelope. -/
inductive SettingValue
  | int (n : Int)
  | str (s : String)
  | bool (b : Bool)
  | list (l : List String)
deriving DecidableEq

namespace SettingsService

/-- The `VALID_PROVIDERS` (settings.py line 31). -/
def VALID_PROVIDERS : List String := ["anthropic", "openai", "google", "ollama"]

/-- The `VALID_TIERS` (settings.py line 32). -/
def VALID_TIERS : List String := ["fast", "smart", "smartest"]

/-- The `DEFAULTS` (settings.py lines 35-43); `none` for unknown keys. -/
def DEFAULTS (key : String) : Option SettingValue :=
  if key = "fetch_interval_minutes" then some (.int 60)
  else if key = "fetch_worker_count" then some (.int 3)
  else if key = "digest_time" then some (.str "08:00")
  else if key = "telegram_notifications" then some (.bool true)
  else if key = "digest_sections" then
    some (.list ["security_news", "product_news", "market"])
  else if key = "summarizer_provider" then some (.str "ollama")
  else if key = "summarizer_tier" then some (.str "fast")
  else none

/-- The `TYPES.get(key, "text")` (settings.py lines 57-65). -/
def TYPES (key : String) : String :=
  if key = "fetch_interval_minutes" then "number"
  else if key = "fetch_worker_count" then "number"
  else if key = "digest_time" then "time"
  else if key = "telegram_notifications" then "boolean"
  else if key = "digest_sections" then "multiselect"
  else "text"

/-- The `OPTIONS.get(key, [])` (settings.py lines 68-70). -/
def OPTIONS (key : String) : List String :=
  if key = "digest_sections" then
    ["security_news", "product_news", "market", "research"]
  else []

/-- The strict HH:MM validation of `_validate_value` (settings.py lines
223-237): length 5, a colon at index 2, two decimal digits on each side,
hours 0-23 and minutes 0-59. -/
def digestTimeValid (s : String) : Bool :=
  s.length = 5 && s.toList.getD 2 ' ' = ':' &&
  (match splitOnChar ':' s.toList with
   | [hs, ms] =>
     hs.length = 2 && ms.length = 2 &&
     (match parseDigits hs, parseDigits ms with
      | some h, some m => h ≤ 23 && m ≤ 59
      | _, _ => false)
   | _ => false)

/-- The `_validate_value` (settings.py lines 206-266), dispatching on the
setting's declared type; `true` means the value is accepted. -/
def _validate_value (key : String) (v : SettingValue) : Bool :=
  let t := TYPES key
  if t = "number" then
    match v with
    | .int n => 1 ≤ n
    | _ => false
  else if t = "time" then
    match v with
    | .str s => digestTimeValid s
    | _ => false
  else if t = "boolean" then
    match v with
    | .bool _ => true
    | _ => false
  else if t = "multiselect" then
    match v with
    | .list l => l.all (fun item => (OPTIONS key).contains item)
    | _ => false
  else
    match v with
    | .str s =>
      if key = "summarizer_provider" then VALID_PROVIDERS.contains s
      else if key = "summarizer_tier" then VALID_TIERS.contains s
      else true
    | _ => false

/-- The settings table: for each key, the stored envelope's value if a row
exists. `set` always writes a proper envelope, so the envelope is its
value. -/
def State := String → Option SettingValue

/-- The `get` (settings.py lines 72-98): unknown keys raise KeyError; a stored
row yields its envelope value, otherwise the default. -/
def get (st : State) (key : String) : Except String SettingValue :=
  match DEFAULTS key with
  | none => Except.error ("Unknown setting: " ++ key)
  | some d =>
    match st key with
    | some v => Except.ok v
    | none => Except.ok d

/-- The `set` (settings.py lines 100-141): unknown keys raise KeyError, invalid
values raise ValueError, otherwise upsert the row. -/
def set (st : State) (key : String) (v : SettingValue) :
    Except String State :=
  match DEFAULTS key with
  | none => Except.error ("Unknown setting: " ++ key)
  | some _ =>
    if _validate_value key v then
      Except.ok (fun k => if k = key then some v else st k)
    else Except.error "bad value"

/-- The `reset` (settings.py lines 180-204): unknown keys raise KeyError;
otherwise delete the row if present (deleting an absent row is the same
state). -/
def reset (st : State) (key : String) : Except String State :=
  match DEFAULTS key with
  | none => Except.error ("Unknown setting: " ++ key)
  | some _ => Except.ok (fun k => if k = key then none else st k)

end SettingsService

/-! ## Job-run ledger (JobRunService, src/core/services/job_runs.py) -/

/-- A `job_runs` row. Timestamps in minutes since the epoch; `details` as a
string-to-string map, which is all the callers store. -/
structure JobRun where
  id : Nat
  job_name : String
  status : String
  started_at : Int
  finished_at : Option Int
  details : List (String × String)
  error_message : Option String
deriving DecidableEq

/-- The `job_runs` table. -/
abbrev Ledger := List JobRun

namespace JobRunService

/-- The `start` (job_runs.py lines 38-64): insert a new row with status
running, `started_at` now and the given details; return the new id. -/
def start (led : Ledger) (newId : Nat) (now_utc : Int) (job_name : String)
    (details : List (String × String)) : Ledger × Nat :=
  (led ++ [{ id := newId, job_name := job_name, status := "running",
             started_at := now_utc, finished_at := none,
             details := details, error_message := none }], newId)

/-- The `finish` (job_runs.py lines 66-104): look the row up by id; when no row
exists, log a warning and return with the table untouched; otherwise set
status and `finished_at`, and replace details / set the error message only
when provided. -/
def finish (led : Ledger) (run_id : Nat) (now_utc : Int) (status : String)
    (details : Option (List (String × String)))
    (error_message : Option String) : Ledger :=
  if led.any (fun r => r.id = run_id) then
    led.map (fun r =>
      if r.id = run_id then
        { r with
          status := status,
          finished_at := some now_utc,
          details := match details with | some d => d | none => r.details,
          error_message := match error_message with
            | some e => some e
            | none => r.error_message }
      else r)
  else led

end JobRunService

/-! ## Fetch worker loop (run_worker,
src/workers/security_digest_worker.py lines 106-160) -/

/-- The `FetchStats` dataclass (manager.py lines 26-36). -/
structure FetchStats where
  sources_checked : Nat
  sources_fetched : Nat
  articles_found : Nat
  articles_new : Nat
  articles_filtered : Nat
  articles_old : Nat
  errors : List String
deriving DecidableEq

/-- Outcome of the `fetch_due_sources` call inside one loop iteration of
`run_worker`: either the returned stats or a raised exception. -/
inductive CycleOutcome
  | ok (stats : FetchStats)
  | exn (msg : String)
deriving DecidableEq

/-- One iteration of the `while` loop of `run_worker`
(security_digest_worker.py lines 123-158), as its effect on the job-run
ledger plus the log lines it emits. The loop body calls
`fetch_due_sources`, logs the stats or the caught exception, and sleeps;
it contains no `JobRunService` call, so the ledger passes through
unchanged on both paths. -/
def run_worker_cycle (led : Ledger) (outcome : CycleOutcome) :
    Ledger × List String :=
  match outcome with
  | .ok _stats => (led, ["Starting fetch cycle...", "Fetch complete"])
  | .exn e => (led, ["Starting fetch cycle...", "Error in fetch cycle: " ++ e])

/-- Number of ledger rows for a given job name. -/
def countJobRows (led : Ledger) (name : String) : Nat :=
  (led.filter (fun r => r.job_name = name)).length

/-! ## Digest generation transaction and scheduler
(DigestService.generate, src/core/services/digest.py lines 144-166;
run_once, src/workers/daily_digest_worker.py lines 76-161) -/

/-- A `digests` row (fields used by the claims). `date` is a calendar date
ordinal and carries a unique constraint. -/
structure DigestRow where
  id : Nat
  date : Int
  status : String
  html_path : String
  created_at : Int
deriving DecidableEq

/-- An `articles` row restricted to the digest-linking fields. -/
structure ArticleRow where
  id : Nat
  digest_id : Option Nat
  summary : Option String
deriving DecidableEq

/-- The portion of the database the digest transaction touches. -/
structure DigestDB where
  digests : List DigestRow
  articles : List ArticleRow
deriving DecidableEq

/-- Step 8 of `generate` (digest.py lines 147-166): inside one session,
insert the Digest row and update each included article's `digest_id` and
`summary`, then commit. The unique constraint on `digests.date` makes the
commit fail with IntegrityError exactly when a row with the same date is
already present, and the session context manager rolls the whole
transaction back, so the error case returns no new state.
`included` pairs each included article id with the in-memory summary the
generator computed for it. -/
def commitDigestTxn (db : DigestDB) (digest : DigestRow)
    (included : List (Nat × Option String)) : Except Unit DigestDB :=
  if db.digests.any (fun d => d.date = digest.date) then Except.error ()
  else Except.ok
    { digests := db.digests ++ [digest],
      articles := db.articles.map (fun a =>
        match included.find? (fun p => p.fst = a.id) with
        | some p => { a with digest_id := some digest.id, summary := p.snd }
        | none => a) }

/-- One `generate` attempt as seen by the database: the transaction commits
or the state is unchanged (the Bool records whether it committed). -/
def tryGenerate (db : DigestDB) (digest : DigestRow)
    (included : List (Nat × Option String)) : DigestDB × Bool :=
  match commitDigestTxn db digest included with
  | Except.ok db2 => (db2, true)
  | Except.error _ => (db, false)

/-- Any serialization of concurrent `generate` attempts: the unique index
on `digests.date` serializes the commits, so an interleaving is a sequence
of atomic `tryGenerate` steps. -/
def applyGenerates (db : DigestDB)
    (attempts : List (DigestRow × List (Nat × Option String))) : DigestDB :=
  attempts.foldl (fun s p => (tryGenerate s p.1 p.2).1) db

/-- At most one `digests` row per date. -/
def datesUnique (db : DigestDB) : Prop :=
  (db.digests.map (fun d => d.date)).Nodup

/-- Outcome of the `digest_service.generate()` call inside `run_once`. -/
inductive GenerateOutcome
  | success (digest_id : Nat) (notified : Bool)
  | integrityError
  | otherError (msg : String)
deriving DecidableEq

/-- The `run_once` (daily_digest_worker.py lines 76-161) as its effect on the
job-run ledger: start a `digest_scheduler` run; if a digest already exists
for today finish it skipped with reason already_exists; otherwise dispatch
on the outcome of `generate()` — success, IntegrityError (finish skipped
with reason unique_conflict), or any other exception (finish error with the
message truncated to 500 characters). -/
def run_once (led : Ledger) (newRunId : Nat) (now_utc : Int)
    (digest_date digest_time_str : String) (alreadyExists : Bool)
    (gen : GenerateOutcome) : Ledger :=
  let started := JobRunService.start led newRunId now_utc "digest_scheduler"
    [("digest_date", digest_date), ("digest_time_utc", digest_time_str)]
  let led1 := started.fst
  let run_id := started.snd
  if alreadyExists then
    JobRunService.finish led1 run_id now_utc "skipped"
      (some [("digest_date", digest_date), ("reason", "already_exists")]) none
  else
    match gen with
    | .success digest_id notified =>
      JobRunService.finish led1 run_id now_utc "success"
        (some [("digest_date", digest_date), ("digest_id", toString digest_id),
               ("notified", if notified then "true" else "false"),
               ("digest_time_utc", digest_time_str)]) none
    | .integrityError =>
      JobRunService.finish led1 run_id now_utc "skipped"
        (some [("digest_date", digest_date), ("reason", "unique_conflict")]) none
    | .otherError msg =>
      JobRunService.finish led1 run_id now_utc "error"
        (some [("digest_date", digest_date),
               ("digest_time_utc", digest_time_str)])
        (some (String.mk (msg.toList.take 500)))

/-! ## Theorems -/

/-- Helper: `olderOrSame` is reflexive. -/
theorem olderOrSame_refl (a : Option Int) : olderOrSame a a = true := by
  cases a <;> simp [olderOrSame]

/-- Helper: `olderOrSame` is total. -/
theorem olderOrSame_total (a b : Option Int) :
    olderOrSame a b = true ∨ olderOrSame b a = true := by
  cases a <;> cases b <;> simp [olderOrSame] <;> omega

/-- Helper: `olderOrSame` is transitive. -/
theorem olderOrSame_trans {a b c : Option Int} (h1 : olderOrSame a b = true)
    (h2 : olderOrSame b c = true) : olderOrSame a c = true := by
  cases a <;> cases b <;> cases c <;> simp [olderOrSame] at * <;> omega

/-- Helper: `pickOldest` fails only on the empty list. -/
theorem pickOldest_eq_none {l : List Source} (h : pickOldest l = none) :
    l = [] := by
  cases l with
  | nil => rfl
  | cons a rest =>
    rw [pickOldest] at h
    split at h
    · exact absurd h (by simp)
    · split at h <;> exact absurd h (by simp)

/-- Helper: `pickOldest` returns an element of its input. -/
theorem pickOldest_mem {l : List Source} {s : Source}
    (h : pickOldest l = some s) : s ∈ l := by
  induction l with
  | nil => simp [pickOldest] at h
  | cons a rest ih =>
    rw [pickOldest] at h
    split at h
    · injection h with h
      exact h ▸ List.mem_cons_self a rest
    · split at h
      · injection h with h
        exact h ▸ List.mem_cons_self a rest
      · next b hb _ =>
        injection h with h
        exact List.mem_cons_of_mem a (ih (h ▸ hb))

/-- Helper: `pickOldest` returns a minimal element in the `olderOrSame` order. -/
theorem pickOldest_min {l : List Source} {s : Source}
    (h : pickOldest l = some s) :
    ∀ t ∈ l, olderOrSame s.last_fetched_at t.last_fetched_at = true := by
  induction l generalizing s with
  | nil => simp [pickOldest] at h
  | cons a rest ih =>
    rw [pickOldest] at h
    intro t ht
    split at h
    · next hr =>
      injection h with h
      subst h
      have hrest := pickOldest_eq_none hr
      subst hrest
      rcases List.mem_cons.mp ht with h1 | h1
      · exact h1 ▸ olderOrSame_refl _
      · simp at h1
    · next b hb =>
      split at h
      · next hc =>
        injection h with h
        subst h
        rcases List.mem_cons.mp ht with h1 | h1
        · exact h1 ▸ olderOrSame_refl _
        · exact olderOrSame_trans hc (ih hb t h1)
      · next hc =>
        injection h with h
        subst h
        rcases List.mem_cons.mp ht with h1 | h1
        · rw [h1]
          rcases olderOrSame_total a.last_fetched_at b.last_fetched_at with
            h2 | h2
          · exact absurd h2 hc
          · exact h2
        · exact ih hb t h1

/-- Helper: `pickOldest` succeeds on a nonempty list. -/
theorem pickOldest_isSome {l : List Source} (h : l ≠ []) :
    ∃ s, pickOldest l = some s := by
  cases l with
  | nil => exact absurd rfl h
  | cons a rest =>
    rw [pickOldest]
    cases pickOldest rest with
    | none => exact ⟨a, rfl⟩
    | some b =>
      by_cases hc : olderOrSame a.last_fetched_at b.last_fetched_at = true
      · exact ⟨a, if_pos hc⟩
      · exact ⟨b, if_neg hc⟩

/-- C1: one fetch-cycle iteration of `run_worker`
(security_digest_worker.py lines 123-158) leaves the job-run ledger
unchanged on both the success path and the exception path: it writes
neither a JobRun start row with name fetch_cycle nor any terminal row,
contradicting the specified (and test-asserted) behavior. -/
theorem C1_run_worker_cycle_writes_no_job_run (led : Ledger)
    (outcome : CycleOutcome) :
    (run_worker_cycle led outcome).fst = led ∧
    countJobRows (run_worker_cycle led outcome).fst "fetch_cycle" =
      countJobRows led "fetch_cycle" := by
  cases outcome <;> exact ⟨rfl, rfl⟩

/-- C5: `compute_next_run_utc` returns today at HH:MM when now is strictly
before that instant, and otherwise (equality included) the next calendar
day at HH:MM; in particular (2026-02-12 08:00, 08:00) yields
2026-02-13 08:00. -/
theorem C5_compute_next_run (now : PyDateTime) (s : String) (h m : Nat)
    (hp : parseTimeParts s = some (h, m)) :
    (PyDateTime.ltb now (replaceTime now h m) = true →
      compute_next_run_utc now s = some (replaceTime now h m)) ∧
    (PyDateTime.ltb now (replaceTime now h m) = false →
      compute_next_run_utc now s = some (addOneDay (replaceTime now h m))) ∧
    compute_next_run_utc ⟨2026, 2, 12, 8, 0, 0, 0⟩ "08:00" =
      some ⟨2026, 2, 13, 8, 0, 0, 0⟩ := by
  refine ⟨?_, ?_, by decide⟩
  · intro hlt
    simp [compute_next_run_utc, hp, hlt]
  · intro hlt
    simp [compute_next_run_utc, hp, hlt]

/-- C5 witness: a concrete morning input before the target time. -/
theorem C5_compute_next_run_witness :
    compute_next_run_utc ⟨2026, 2, 12, 6, 0, 0, 0⟩ "08:00" =
      some ⟨2026, 2, 12, 8, 0, 0, 0⟩ :=
  (C5_compute_next_run ⟨2026, 2, 12, 6, 0, 0, 0⟩ "08:00" 8 0 (by decide)).1
    (by decide)

/-- C6: the recency cutoff is the source's last_fetched_at when set and
now minus 24 hours otherwise; candidates without a published date pass the
gate; a dated candidate fails the gate exactly when published strictly
before the cutoff, and a non-duplicate dated candidate published before
the cutoff is counted as old. -/
theorem C6_recency_gate (source : Source) (now_utc cutoff p : Int)
    (article : ExtractedArticle) (st : SaveState) :
    ((∀ t, source.last_fetched_at = some t →
        _get_date_cutoff source now_utc = t) ∧
     (source.last_fetched_at = none →
        _get_date_cutoff source now_utc = now_utc - 1440)) ∧
    (article.published_at = none → _is_recent_enough article cutoff = true) ∧
    (article.published_at = some p →
      (_is_recent_enough article cutoff = false ↔ p < cutoff)) ∧
    (st.existing.contains article.url = false →
      article.published_at = some p → p < cutoff →
      saveStep source cutoff st article =
        { st with stats := { st.stats with old := st.stats.old + 1 } }) := by
  have hsome : ∀ q : Int, article.published_at = some q →
      _is_recent_enough article cutoff = decide (cutoff ≤ q) := by
    intro q hq
    unfold _is_recent_enough
    rw [hq]
  refine ⟨⟨?_, ?_⟩, ?_, ?_, ?_⟩
  · intro t ht
    simp [_get_date_cutoff, ht]
  · intro ht
    simp [_get_date_cutoff, ht]
  · intro hp
    simp [_is_recent_enough, hp]
  · intro hp
    rw [hsome p hp]
    simp only [decide_eq_false_iff_not, Int.not_le]
  · intro hdup hp hold
    have hrec : _is_recent_enough article cutoff = false := by
      rw [hsome p hp]
      exact decide_eq_false (by omega)
    have hdup2 : article.url ∉ st.existing := by simpa using hdup
    simp [saveStep, hdup2, hrec]

/-- C6 witness: never-fetched source, article published 1441 minutes before
now, empty save state. -/
theorem C6_recency_gate_witness :
    saveStep { id := 1, enabled := true, last_fetched_at := none,
               fetch_interval_minutes := 60, keywords := [], category := none }
      ((2000 : Int) - 1440)
      { existing := [], inserted := [], stats := ⟨0, 0, 0, 0⟩ }
      { url := "http://a/x", title := "t", content := "c",
        published_at := some 400 } =
      { existing := [], inserted := [], stats := ⟨0, 0, 1, 0⟩ } :=
  (C6_recency_gate
    { id := 1, enabled := true, last_fetched_at := none,
      fetch_interval_minutes := 60, keywords := [], category := none }
    2000 (2000 - 1440) 400
    { url := "http://a/x", title := "t", content := "c",
      published_at := some 400 }
    { existing := [], inserted := [], stats := ⟨0, 0, 0, 0⟩ }).2.2.2
    (by decide) rfl (by decide)

/-- C7 as stated is refuted: with an empty title and a failing backend,
`summarize` returns an empty summary, so the summary is not always a
non-empty string. -/
theorem C7_summarize_counterexample :
    (summarize "" "some content" "http://x/y" LLMOutcome.failure).summary
      = "" := rfl

/-- C7 (amended): `summarize` is total; on any backend failure the summary
equals the input title; the summary is non-empty whenever the title is
non-empty (and in general is either the title or a non-empty stripped model
answer); the returned title and url echo the inputs. -/
theorem C7_summarize_total (title content url : String)
    (outcome : LLMOutcome) :
    (outcome = LLMOutcome.failure →
      (summarize title content url outcome).summary = title) ∧
    ((summarize title content url outcome).summary = title ∨
      (summarize title content url outcome).summary ≠ "") ∧
    (title ≠ "" → (summarize title content url outcome).summary ≠ "") ∧
    (summarize title content url outcome).title = title ∧
    (summarize title content url outcome).url = url := by
  have hmain : (summarize title content url outcome).summary = title ∨
      (summarize title content url outcome).summary ≠ "" := by
    cases outcome with
    | failure => exact Or.inl rfl
    | success f =>
      match f with
      | some (.jstr s) =>
        by_cases hs : pyStrip s = ""
        · exact Or.inl (by simp [summarize, hs])
        · exact Or.inr (by simp [summarize, hs])
      | some .jother => exact Or.inl rfl
      | none => exact Or.inl rfl
  refine ⟨?_, hmain, ?_, ?_, ?_⟩
  · intro ho
    subst ho
    rfl
  · intro htitle
    rcases hmain with h | h
    · rw [h]; exact htitle
    · exact h
  · cases outcome with
    | failure => rfl
    | success f =>
      match f with
      | some (.jstr s) =>
        by_cases hs : pyStrip s = "" <;> simp [summarize, hs]
      | some .jother => rfl
      | none => rfl
  · cases outcome with
    | failure => rfl
    | success f =>
      match f with
      | some (.jstr s) =>
        by_cases hs : pyStrip s = "" <;> simp [summarize, hs]
      | some .jother => rfl
      | none => rfl

/-- C7 witness: non-empty title, failing backend. -/
theorem C7_summarize_total_witness :
    (summarize "Title" "c" "http://x" LLMOutcome.failure).summary = "Title" ∧
    (summarize "Title" "c" "http://x" LLMOutcome.failure).summary ≠ "" :=
  ⟨(C7_summarize_total "Title" "c" "http://x" LLMOutcome.failure).1 rfl,
   (C7_summarize_total "Title" "c" "http://x" LLMOutcome.failure).2.2.1
     (by decide)⟩

/-- C10: `JobRunService.finish` called with a run id no row has is a
silent no-op: it returns normally and the table is unchanged. -/
theorem C10_finish_unknown_run_noop (led : Ledger) (run_id : Nat)
    (now_utc : Int) (status : String)
    (details : Option (List (String × String)))
    (error_message : Option String)
    (habs : ∀ r ∈ led, r.id ≠ run_id) :
    JobRunService.finish led run_id now_utc status details error_message
      = led := by
  unfold JobRunService.finish
  have h : led.any (fun r => r.id = run_id) = false := by
    rw [List.any_eq_false]
    intro r hr
    simpa using habs r hr
  simp [h]

/-- C10 witness: a one-row ledger and a different run id. -/
theorem C10_finish_unknown_run_noop_witness :
    JobRunService.finish
      [{ id := 1, job_name := "digest_scheduler", status := "running",
         started_at := 0, finished_at := none, details := [],
         error_message := none }] 2 5 "success" none none =
      [{ id := 1, job_name := "digest_scheduler", status := "running",
         started_at := 0, finished_at := none, details := [],
         error_message := none }] :=
  C10_finish_unknown_run_noop _ 2 5 "success" none none (by decide)

/-- C3: the claim-next-due-source query returns at most one source (an
`Option`); a claimed source belongs to the table, is enabled, is due
(null last_fetched_at, or last_fetched_at at least fetch_interval_minutes
before now), and has a minimal last_fetched_at in the NULLS FIRST
ascending order among all eligible sources; and whenever an eligible
source exists, some source is claimed. -/
theorem C3_claim_next_due (sources : List Source) (now_utc : Int)
    (attempted locked : List Nat) :
    (∀ s, claimNextDueSource sources now_utc attempted locked = some s →
      s ∈ sources ∧ s.enabled = true ∧
      (s.last_fetched_at = none ∨
        ∃ t, s.last_fetched_at = some t ∧
          t ≤ now_utc - s.fetch_interval_minutes) ∧
      ∀ u ∈ sources, claimEligible u now_utc attempted locked = true →
        olderOrSame s.last_fetched_at u.last_fetched_at = true) ∧
    (∀ u ∈ sources, claimEligible u now_utc attempted locked = true →
      ∃ s, claimNextDueSource sources now_utc attempted locked = some s) := by
  constructor
  · intro s hs
    have hmem0 := pickOldest_mem hs
    rw [List.mem_filter] at hmem0
    obtain ⟨hmem, helig⟩ := hmem0
    have helig2 := helig
    simp only [claimEligible, Bool.and_eq_true] at helig2
    obtain ⟨⟨⟨hen, hdue⟩, _⟩, _⟩ := helig2
    refine ⟨hmem, hen, ?_, ?_⟩
    · unfold dueWhen at hdue
      cases hl : s.last_fetched_at with
      | none => exact Or.inl rfl
      | some t =>
        rw [hl] at hdue
        exact Or.inr ⟨t, rfl, by simpa using hdue⟩
    · intro u hu heligu
      exact pickOldest_min hs u (List.mem_filter.mpr ⟨hu, heligu⟩)
  · intro u hu helig
    have hne : sources.filter
        (fun s => claimEligible s now_utc attempted locked) ≠ [] := by
      intro hnil
      have hin : u ∈ sources.filter
          (fun s => claimEligible s now_utc attempted locked) :=
        List.mem_filter.mpr ⟨hu, helig⟩
      rw [hnil] at hin
      simp at hin
    exact pickOldest_isSome hne

/-- C3 witness: a never-fetched source A and a due once-fetched source B;
B is eligible, so a source is claimed, and unfolding shows it is A. -/
theorem C3_claim_next_due_witness :
    (∃ s, claimNextDueSource
      [{ id := 1, enabled := true, last_fetched_at := none,
         fetch_interval_minutes := 60, keywords := [], category := none },
       { id := 2, enabled := true, last_fetched_at := some 100,
         fetch_interval_minutes := 60, keywords := [], category := none }]
      200 [] [] = some s) :=
  (C3_claim_next_due
    [{ id := 1, enabled := true, last_fetched_at := none,
       fetch_interval_minutes := 60, keywords := [], category := none },
     { id := 2, enabled := true, last_fetched_at := some 100,
       fetch_interval_minutes := 60, keywords := [], category := none }]
    200 [] []).2
    { id := 2, enabled := true, last_fetched_at := some 100,
      fetch_interval_minutes := 60, keywords := [], category := none }
    (by decide) (by decide)

/-- C4: the gates of `_save_articles` apply in the fixed order
de-duplication, recency, keyword: a duplicate is counted without the later
gates being consulted (the result is the same for every published date and
keyword outcome), an old candidate is counted without the keyword gate
being consulted, a keyword miss is counted as filtered, and a candidate is
inserted exactly when it passes all three gates. -/
theorem C4_filter_gate_order (source : Source) (cutoff : Int)
    (st : SaveState) (article : ExtractedArticle) :
    (st.existing.contains article.url = true →
      saveStep source cutoff st article =
        { st with stats :=
            { st.stats with duplicate := st.stats.duplicate + 1 } }) ∧
    (st.existing.contains article.url = false →
      _is_recent_enough article cutoff = false →
      saveStep source cutoff st article =
        { st with stats := { st.stats with old := st.stats.old + 1 } }) ∧
    (st.existing.contains article.url = false →
      _is_recent_enough article cutoff = true →
      _matches_keywords article source = false →
      saveStep source cutoff st article =
        { st with stats :=
            { st.stats with filtered := st.stats.filtered + 1 } }) ∧
    ((saveStep source cutoff st article).inserted = st.inserted ++ [article] ↔
      st.existing.contains article.url = false ∧
      _is_recent_enough article cutoff = true ∧
      _matches_keywords article source = true) := by
  have hlen : st.inserted ≠ st.inserted ++ [article] := by
    intro hE
    have hL := congrArg List.length hE
    simp at hL
  refine ⟨?_, ?_, ?_, ?_⟩
  · intro hdup
    have hdup2 : article.url ∈ st.existing := by simpa using hdup
    simp [saveStep, hdup2]
  · intro hdup hrec
    have hdup2 : article.url ∉ st.existing := by simpa using hdup
    simp [saveStep, hdup2, hrec]
  · intro hdup hrec hkw
    have hdup2 : article.url ∉ st.existing := by simpa using hdup
    simp [saveStep, hdup2, hrec, hkw]
  · by_cases hdup : st.existing.contains article.url
    · have hdup2 : article.url ∈ st.existing := by simpa using hdup
      have hres : (saveStep source cutoff st article).inserted = st.inserted := by
        simp [saveStep, hdup2]
      rw [hres]
      constructor
      · intro hins
        exact absurd hins hlen
      · rintro ⟨h1, -, -⟩
        rw [hdup] at h1
        cases h1
    · have hdup2 : article.url ∉ st.existing := by simpa using hdup
      by_cases hrec : _is_recent_enough article cutoff
      · by_cases hkw : _matches_keywords article source
        · have hres : (saveStep source cutoff st article).inserted =
              st.inserted ++ [article] := by
            simp [saveStep, hdup2, hrec, hkw]
          rw [hres]
          simp [hrec, hkw, hdup2]
        · have hres : (saveStep source cutoff st article).inserted =
              st.inserted := by
            simp [saveStep, hdup2, hrec, Bool.eq_false_iff.mpr hkw]
          rw [hres]
          constructor
          · intro hins
            exact absurd hins hlen
          · rintro ⟨-, -, h3⟩
            exact absurd h3 hkw
      · have hres : (saveStep source cutoff st article).inserted =
            st.inserted := by
          simp [saveStep, hdup2, Bool.eq_false_iff.mpr hrec]
        rw [hres]
        constructor
        · intro hins
          exact absurd hins hlen
        · rintro ⟨-, h2, -⟩
          exact absurd h2 hrec

/-- C4 witness: a fresh keyword-matching candidate is inserted; the same
candidate against a table already holding its URL is counted duplicate. -/
theorem C4_filter_gate_order_witness :
    (saveStep { id := 1, enabled := true, last_fetched_at := none,
                fetch_interval_minutes := 60, keywords := ["cve"],
                category := none }
      0 { existing := [], inserted := [], stats := ⟨0, 0, 0, 0⟩ }
      { url := "http://a/x", title := "New CVE disclosed", content := "body",
        published_at := some 5 }).inserted =
      [] ++ [{ url := "http://a/x", title := "New CVE disclosed",
               content := "body", published_at := some 5 }] ∧
    saveStep { id := 1, enabled := true, last_fetched_at := none,
               fetch_interval_minutes := 60, keywords := ["cve"],
               category := none }
      0 { existing := ["http://a/x"], inserted := [], stats := ⟨0, 0, 0, 0⟩ }
      { url := "http://a/x", title := "New CVE disclosed", content := "body",
        published_at := some 5 } =
      { existing := ["http://a/x"], inserted := [],
        stats := ⟨0, 0, 0, 1⟩ } := by
  constructor
  · exact (C4_filter_gate_order
      { id := 1, enabled := true, last_fetched_at := none,
        fetch_interval_minutes := 60, keywords := ["cve"], category := none }
      0 { existing := [], inserted := [], stats := ⟨0, 0, 0, 0⟩ }
      { url := "http://a/x", title := "New CVE disclosed", content := "body",
        published_at := some 5 }).2.2.2.mpr
      ⟨by decide, by decide, by decide⟩
  · exact (C4_filter_gate_order
      { id := 1, enabled := true, last_fetched_at := none,
        fetch_interval_minutes := 60, keywords := ["cve"], category := none }
      0 { existing := ["http://a/x"], inserted := [], stats := ⟨0, 0, 0, 0⟩ }
      { url := "http://a/x", title := "New CVE disclosed", content := "body",
        published_at := some 5 }).1 (by decide)

/-- C8: for every recognized key and valid value, `set` then `get` returns
the value just set, and `reset` then `get` returns the key's default,
whatever the prior stored state. -/
theorem C8_settings_round_trip (st : SettingsService.State) (key : String)
    (v d : SettingValue) (hk : SettingsService.DEFAULTS key = some d)
    (hv : SettingsService._validate_value key v = true) :
    (∃ st1, SettingsService.set st key v = Except.ok st1 ∧
      SettingsService.get st1 key = Except.ok v) ∧
    (∃ st2, SettingsService.reset st key = Except.ok st2 ∧
      SettingsService.get st2 key = Except.ok d) := by
  constructor
  · refine ⟨fun k => if k = key then some v else st k, ?_, ?_⟩
    · unfold SettingsService.set
      rw [hk]
      simp [hv]
    · unfold SettingsService.get
      rw [hk]
      simp
  · refine ⟨fun k => if k = key then none else st k, ?_, ?_⟩
    · unfold SettingsService.reset
      rw [hk]
    · unfold SettingsService.get
      rw [hk]
      simp

/-- C8 witness: set digest_time to 09:30 from the empty store, then reset. -/
theorem C8_settings_round_trip_witness :
    (∃ st1, SettingsService.set (fun _ => none) "digest_time"
        (SettingValue.str "09:30") = Except.ok st1 ∧
      SettingsService.get st1 "digest_time" =
        Except.ok (SettingValue.str "09:30")) ∧
    (∃ st2, SettingsService.reset (fun _ => none) "digest_time" =
        Except.ok st2 ∧
      SettingsService.get st2 "digest_time" =
        Except.ok (SettingValue.str "08:00")) :=
  C8_settings_round_trip (fun _ => none) "digest_time"
    (SettingValue.str "09:30") (SettingValue.str "08:00")
    (by decide) (by decide)

/-- One committed or failed digest transaction preserves date uniqueness. -/
theorem tryGenerate_preserves_datesUnique (db : DigestDB) (digest : DigestRow)
    (included : List (Nat × Option String)) (h : datesUnique db) :
    datesUnique (tryGenerate db digest included).fst := by
  cases hb : db.digests.any (fun d => d.date = digest.date) with
  | true =>
    simpa [tryGenerate, commitDigestTxn, hb] using h
  | false =>
    have hnot : digest.date ∉ db.digests.map (fun d => d.date) := by
      rw [List.mem_map]
      rintro ⟨d, hd, hdd⟩
      have hne := List.any_eq_false.mp hb d hd
      simp only [decide_eq_true_eq] at hne
      exact hne hdd
    unfold datesUnique at h ⊢
    simp only [tryGenerate, commitDigestTxn, hb, Bool.false_eq_true,
      if_false, List.map_append, List.map_cons, List.map_nil]
    exact List.Nodup.append h (List.nodup_singleton _)
      (by simpa [List.disjoint_singleton] using hnot)

/-- Any sequence of digest transactions preserves date uniqueness. -/
theorem applyGenerates_preserves_datesUnique
    (attempts : List (DigestRow × List (Nat × Option String)))
    (db : DigestDB) (h : datesUnique db) :
    datesUnique (applyGenerates db attempts) := by
  induction attempts generalizing db with
  | nil => exact h
  | cons a rest ih =>
    unfold applyGenerates at *
    simp only [List.foldl_cons]
    exact ih _ (tryGenerate_preserves_datesUnique db a.1 a.2 h)

/-- When a row with the target id exists, `finish` keeps the updated row in
the table. -/
theorem finish_updates_member {led : Ledger} {row : JobRun} {run_id : Nat}
    (hmem : row ∈ led) (hid : row.id = run_id) (now_utc : Int)
    (status : String) (details : Option (List (String × String)))
    (err : Option String) :
    { row with
      status := status,
      finished_at := some now_utc,
      details := (match details with | some d => d | none => row.details),
      error_message := (match err with
        | some e => some e
        | none => row.error_message) } ∈
      JobRunService.finish led run_id now_utc status details err := by
  unfold JobRunService.finish
  have hany : led.any (fun r => r.id = run_id) = true := by
    rw [List.any_eq_true]
    exact ⟨row, hmem, by simp [hid]⟩
  simp only [hany, if_true]
  have hmap := List.mem_map_of_mem (fun r : JobRun =>
    if r.id = run_id then
      { r with
        status := status,
        finished_at := some now_utc,
        details := (match details with | some d => d | none => r.details),
        error_message := (match err with
          | some e => some e
          | none => r.error_message) }
    else r) hmem
  simpa [hid] using hmap

/-- C2: the digest insert and the article updates form one atomic
transaction: on a date-uniqueness conflict the database state is unchanged
(no digest row persisted, no article's digest_id or summary touched); a
successful commit adds exactly the new digest row and links exactly the
included articles; date uniqueness is preserved under any serialization of
generate attempts; and `run_once` records an IntegrityError from
`generate` as a skipped digest_scheduler run with reason unique_conflict. -/
theorem C2_digest_transaction (db : DigestDB) (digest : DigestRow)
    (included : List (Nat × Option String))
    (attempts : List (DigestRow × List (Nat × Option String)))
    (led : Ledger) (newRunId : Nat) (now_utc : Int)
    (digest_date digest_time_str : String) :
    (db.digests.any (fun d => d.date = digest.date) = true →
      tryGenerate db digest included = (db, false)) ∧
    (db.digests.any (fun d => d.date = digest.date) = false →
      tryGenerate db digest included =
        ({ digests := db.digests ++ [digest],
           articles := db.articles.map (fun a =>
             match included.find? (fun p => p.fst = a.id) with
             | some p =>
               { a with digest_id := some digest.id, summary := p.snd }
             | none => a) }, true)) ∧
    (datesUnique db → datesUnique (applyGenerates db attempts)) ∧
    (∃ r ∈ run_once led newRunId now_utc digest_date digest_time_str false
        GenerateOutcome.integrityError,
      r.job_name = "digest_scheduler" ∧ r.status = "skipped" ∧
      ("reason", "unique_conflict") ∈ r.details) := by
  refine ⟨?_, ?_, ?_, ?_⟩
  · intro hb
    simp [tryGenerate, commitDigestTxn, hb]
  · intro hb
    simp [tryGenerate, commitDigestTxn, hb]
  · intro h
    exact applyGenerates_preserves_datesUnique attempts db h
  · refine ⟨_, finish_updates_member
      (List.mem_append_right led (List.mem_singleton.mpr rfl)) rfl now_utc
      "skipped"
      (some [("digest_date", digest_date), ("reason", "unique_conflict")])
      none, rfl, rfl, ?_⟩
    simp

/-- C2 witness: a table already holding a digest for date 5 makes the
second generate attempt a no-op. -/
theorem C2_digest_transaction_witness :
    tryGenerate
      { digests := [{ id := 1, date := 5, status := "ready",
                      html_path := "p", created_at := 0 }],
        articles := [] }
      { id := 2, date := 5, status := "ready", html_path := "q",
        created_at := 1 } [] =
      ({ digests := [{ id := 1, date := 5, status := "ready",
                       html_path := "p", created_at := 0 }],
         articles := [] }, false) :=
  (C2_digest_transaction
    { digests := [{ id := 1, date := 5, status := "ready",
                    html_path := "p", created_at := 0 }],
      articles := [] }
    { id := 2, date := 5, status := "ready", html_path := "q",
      created_at := 1 } [] [] [] 7 0 "2026-02-12" "08:00").1 (by decide)

/-- C9 as stated is refuted: the internal candidate
https://example.com/signup matches none of the claim's rejection rules
(it is http(s), no enumerated listing pattern occurs in its path, it ends
in no listed extension, and its path has 7 characters), yet the extractor
rejects it, because the code's skip patterns also include /register and
/signup. -/
theorem C9_reject_counterexample :
    claimRejects { scheme := "https", netloc := "example.com",
                   path := "/signup", query := "" } = false ∧
    acceptLink { scheme := "https", netloc := "example.com",
                 path := "/signup", query := "" } "example.com" [] = false :=
  ⟨by decide, by decide⟩

/-- C9 (amended): for an internal candidate URL (host equal to the
listing's, or empty), `_extract_article_links` accepts exactly when the
corrected rejection rule does not fire: the scheme is http or https, the
normalized URL was not already seen, no skip pattern occurs as a substring
of the lowercased path (the listing patterns including register and
signup, and the extensions .xml/.pdf/.jpg/.png/.gif anywhere in the path),
and the path is at least 3 characters long after stripping leading and
trailing slashes. -/
theorem C9_accept_internal_iff (u : ParsedUrl) (base_domain : String)
    (seen : List String) (hint : u.netloc = base_domain ∨ u.netloc = "") :
    acceptLink u base_domain seen = true ↔ amendedRejects u seen = false := by
  have hb : (u.netloc = base_domain || u.netloc = "") = true := by
    rcases hint with h | h <;> simp [h]
  unfold acceptLink amendedRejects
  cases hs : (u.scheme = "http" || u.scheme = "https" : Bool) with
  | false => simp [hs]
  | true =>
    simp only [hs, Bool.not_true, Bool.false_eq_true, if_false,
      Bool.false_or]
    cases hseen : seen.contains (normalizeUrl u) with
    | true => simp [hseen]
    | false =>
      simp only [hseen, Bool.false_eq_true, if_false, Bool.false_or]
      cases hpat : skipPatternList.any
          (fun pat => containsChars pat.toList (lowerChars u.path.toList)) with
      | true => simp [hpat]
      | false =>
        simp only [hpat, Bool.false_eq_true, if_false, Bool.false_or]
        by_cases hlen : (stripSlashes u.path.toList).length < 3
        · rw [if_pos hlen, decide_eq_true hlen]
          simp
        · rw [if_neg hlen, decide_eq_false hlen]
          simp [hb]

/-- C9 witness: an internal article path on the listing's own host. -/
theorem C9_accept_internal_iff_witness :
    acceptLink { scheme := "https", netloc := "example.com",
                 path := "/posts/cve-roundup", query := "" }
      "example.com" [] = true :=
  (C9_accept_internal_iff
    { scheme := "https", netloc := "example.com",
      path := "/posts/cve-roundup", query := "" }
    "example.com" [] (Or.inl rfl)).mpr (by decide)
